import Mathlib

/-!
# Shallow embedding of the ForstLedger vaccine cold-chain monitor

This file embeds the algorithmic core of the repository in Lean 4 and proves
properties of it:

* `src/predictor.py` — `TemperaturePredictor` (temperature forecasting and
  breach-risk classification).  Temperatures are modelled as rationals `ℚ`:
  every comparison and arithmetic operation performed by the classifier and by
  the naive-forecast branch involves only decimal literals, additions and
  comparisons, which are exact in both IEEE doubles (for these values) and `ℚ`.
* `src/database.py` — the tamper-evident hash chains of
  `VaccineDatabase.add_temperature_log`, `VaccineDatabase.add_audit_entry` and
  `VaccineDatabase.verify_audit_trail`.  `hashlib.sha256(...).hexdigest()` is
  modelled as an abstract function `hash : String → String`; theorems that
  need collision-freedom take `Function.Injective hash` as a hypothesis.

The database tables are modelled per stream (the rows of one `doctor_id`, in
`id` order, which is append order since `id` is a PostgreSQL `SERIAL`).
-/

namespace ColdChain

/-! ## Predictor: configuration (`TemperaturePredictor.__init__`) -/

/-- The configurable safe range of `TemperaturePredictor.__init__`
(`safe_min`, `safe_max`; defaults 2.0 °C and 8.0 °C). -/
structure PredictorConfig where
  safe_min : ℚ
  safe_max : ℚ
deriving Repr, DecidableEq

/-- The default configuration `TemperaturePredictor()` (safe range 2.0–8.0). -/
def defaultConfig : PredictorConfig := ⟨2, 8⟩

/-- `self.sample_interval = 5` — minutes per prediction step. -/
def sample_interval : Nat := 5

/-- `self.prediction_horizon = 120` — two hours in minutes. -/
def prediction_horizon : Nat := 120

/-- `steps = self.prediction_horizon // self.sample_interval` (= 24). -/
def steps : Nat := prediction_horizon / sample_interval

/-! ## Predictor: `check_breach_risk` -/

/-- First index of `l` whose element satisfies `p`.  This models the idiom
`indices = np.where(cond)[0]; if len(indices) > 0: first = indices[0]`
used four times in `TemperaturePredictor.check_breach_risk`. -/
def firstIdx (p : ℚ → Bool) : List ℚ → Option Nat
  | [] => none
  | x :: xs => if p x then some 0 else (firstIdx p xs).map (· + 1)

/-- `TemperaturePredictor.check_breach_risk(predictions, current_temp)`.

Returns `(alert_type, severity, minutes_to_breach)`.  The Python function
ignores `current_temp`, so it is not a parameter here.  The four scans are, in
source order: value `> safe_max` (actual high breach), value `< safe_min`
(actual low breach), value `> safe_max - 0.5` (upper warning zone, guarded by
`minutes <= 120`, falling through to the next scan when the guard fails),
value `< safe_min + 0.5` (lower warning zone, same guard). -/
def check_breach_risk (cfg : PredictorConfig) (predictions : Option (List ℚ)) :
    Option String × Option String × Option Nat :=
  match predictions with
  | none => (none, none, none)
  | some preds =>
    match firstIdx (fun v => decide (cfg.safe_max < v)) preds with
    | some i =>
        let minutes := (i + 1) * sample_interval
        (some "HIGH_TEMP", some (if minutes ≤ 60 then "CRITICAL" else "WARNING"),
          some minutes)
    | none =>
      match firstIdx (fun v => decide (v < cfg.safe_min)) preds with
      | some i =>
          let minutes := (i + 1) * sample_interval
          (some "LOW_TEMP", some (if minutes ≤ 60 then "CRITICAL" else "WARNING"),
            some minutes)
      | none =>
        match firstIdx (fun v => decide (cfg.safe_max - 1/2 < v)) preds with
        | some i =>
            let minutes := (i + 1) * sample_interval
            if minutes ≤ 120 then (some "HIGH_TEMP", some "WARNING", some minutes)
            else
              match firstIdx (fun v => decide (v < cfg.safe_min + 1/2)) preds with
              | some j =>
                  let m := (j + 1) * sample_interval
                  if m ≤ 120 then (some "LOW_TEMP", some "WARNING", some m)
                  else (none, none, none)
              | none => (none, none, none)
        | none =>
            match firstIdx (fun v => decide (v < cfg.safe_min + 1/2)) preds with
            | some j =>
                let m := (j + 1) * sample_interval
                if m ≤ 120 then (some "LOW_TEMP", some "WARNING", some m)
                else (none, none, none)
            | none => (none, none, none)

/-! ## Predictor: `predict_temperature` -/

/-- Recursion core of pandas `Series.ewm(alpha=α).mean()` with the default
`adjust=True`: position `i` of the output is
`(Σ_{j≤i} (1-α)^(i-j)·x_j) / (Σ_{j≤i} (1-α)^(i-j))`, computed here with the
running numerator `num` and denominator `den`. -/
def ewm_go (alpha num den : ℚ) : List ℚ → List ℚ
  | [] => []
  | x :: xs =>
      let num' := (1 - alpha) * num + x
      let den' := (1 - alpha) * den + 1
      num' / den' :: ewm_go alpha num' den' xs

/-- `TemperaturePredictor.smooth_temperature(series, alpha=0.3)` =
`series.ewm(alpha=0.3).mean()`. -/
def smooth_temperature (xs : List ℚ) : List ℚ := ewm_go (3/10) 0 0 xs

/-- The recursive multi-step projection loop of
`TemperaturePredictor.predict_temperature` (`for _ in range(steps): ...`):
predict the next value from the current window, append it to the forecast and
slide the window (`current_window = current_window[1:] + [next_temp]`).
`nextTemp` is the per-step prediction (see `predict_temperature`). -/
def forecast_loop (nextTemp : List ℚ → ℚ) : Nat → List ℚ → List ℚ
  | 0, _ => []
  | k + 1, window =>
      let t := nextTemp window
      t :: forecast_loop nextTemp k (window.drop 1 ++ [t])

/-- `TemperaturePredictor.predict_temperature(temperature_data)`.

`readings` is the `temperature` column of the data frame, time-ascending.  The
wall-clock timing (`elapsed`) is dropped; the result is
`(predictions, accuracy)` for the source's `(predictions, elapsed, accuracy)`.

Two parts of the ≥ 20-readings path are floating-point numerics of
sklearn/numpy and are abstracted as parameters, faithful to their call shape:

* `nextTemp window` stands for `model.predict(features(window))[0]` plus the
  diurnal ±0.05 adjustment, i.e. the whole body of one loop iteration that
  produces `next_temp`; it is a function of the current window only (the
  trained `Ridge(alpha=1.0, random_state=42)` model and the wall-clock hour
  are fixed for the duration of the call).
* `accuracy` stands for `round(max(75.0, 100 - mae*10), 1)`.

Every theorem below that touches the model-fit path quantifies over both
parameters, so it holds for the concrete sklearn computations in particular.
The `< 20`-readings branch and the two guards are translated literally. -/
def predict_temperature (nextTemp : List ℚ → ℚ) (accuracy : ℚ)
    (readings : List ℚ) : Option (List ℚ) × ℚ :=
  if readings.length < 20 then
    -- Not enough data: naive ramp `[last_temp + i*0.05 for i in range(1, steps+1)]`
    -- with `last_temp = temperature_data['temperature'].iloc[-1]` when any
    -- reading exists and `5.0` otherwise; reported accuracy 75.0.
    let last_temp := readings.getLast?.getD 5
    (some ((List.range steps).map fun i : Nat => last_temp + ((i : ℚ) + 1) * (1/20)),
      75)
  else
    let series := smooth_temperature readings
    let lags := min 12 (readings.length / 3)
    if series.length < lags + 5 then
      (none, 75)
    else
      let current_window := series.drop (series.length - lags)
      (some (forecast_loop nextTemp steps current_window), accuracy)

/-! ## Database: the hash chains of `VaccineDatabase`

The audit trail (`audit_trail` table) and the temperature log
(`temperature_logs` table) are modelled per stream: a `List` of the rows
having one fixed `doctor_id`, ordered by the `SERIAL` column `id`, which is
append order.  `SELECT current_hash ... ORDER BY id DESC LIMIT 1` is therefore
the last element of the list. -/

/-- A Python `datetime.datetime` value, as far as its two textual renderings
are concerned: `isoformat()` produces `date ++ "T" ++ time` and
`str()` / f-string interpolation produces `date ++ " " ++ time` (CPython:
`datetime.__str__ = lambda self: self.isoformat(sep=' ')`).  `add_audit_entry`
inserts `datetime.now().isoformat()` into the `TIMESTAMP` column; psycopg2
returns that column as a `datetime` object, which `verify_audit_trail`
interpolates into an f-string.  PostgreSQL's `timestamp` round-trips the value
itself unchanged (microsecond precision on both sides). -/
structure PyDateTime where
  date : String
  time : String
deriving Repr, DecidableEq

/-- `datetime.isoformat()`: `'T'` separator. -/
def PyDateTime.iso (t : PyDateTime) : String := t.date ++ "T" ++ t.time

/-- `f"{dt}"` = `str(dt)` = `datetime.isoformat(sep=' ')`: space separator. -/
def PyDateTime.pystr (t : PyDateTime) : String := t.date ++ " " ++ t.time

/-- The genesis sentinel `"0" * 64` used for the first record of a chain. -/
def sentinel : String :=
  "0000000000000000000000000000000000000000000000000000000000000000"

/-- One row of the `audit_trail` table (for a fixed `doctor_id`). -/
structure AuditEntry where
  id : Nat
  timestamp : PyDateTime
  action : String
  details : String
  previous_hash : String
  current_hash : String
deriving Repr, DecidableEq

/-- The f-string `f"{timestamp}|{doctor_id}|{action}|{details}|{previous_hash}"`
shared by `add_audit_entry` and `verify_audit_trail`, with the already
rendered timestamp passed in as `ts`. -/
def audit_data_string (ts doctor_id action details previous_hash : String) :
    String :=
  ts ++ "|" ++ doctor_id ++ "|" ++ action ++ "|" ++ details ++ "|" ++ previous_hash

/-- `VaccineDatabase.add_audit_entry(doctor_id, action, details)`.

`hash` models `lambda s: hashlib.sha256(s.encode()).hexdigest()`; `now` is the
value of `datetime.now()` and `newId` the `SERIAL` value assigned by the
`INSERT`.  The serialization hashed at append time renders the timestamp with
`isoformat()` (the `timestamp` local variable *is* that string). -/
def add_audit_entry (hash : String → String) (doctor_id : String)
    (chain : List AuditEntry) (newId : Nat) (now : PyDateTime)
    (action : String) (details : String) : List AuditEntry :=
  let previous_hash :=
    match chain.getLast? with
    | some e => e.current_hash
    | none => sentinel
  let current_hash :=
    hash (audit_data_string now.iso doctor_id action details previous_hash)
  chain ++ [⟨newId, now, action, details, previous_hash, current_hash⟩]

/-- One element of the `verification_results` list built by
`verify_audit_trail` (a dict with keys `id`, `timestamp`, `action`,
`status`). -/
structure VerifyStatus where
  id : Nat
  timestamp : PyDateTime
  action : String
  status : String
deriving Repr, DecidableEq

/-- The status dict appended for a record that passes both checks. -/
def statusOf (e : AuditEntry) : VerifyStatus :=
  ⟨e.id, e.timestamp, e.action, "VALID"⟩

/-- The serialization `verify_audit_trail` recomputes for a fetched row: the
`timestamp` bound from the cursor is a `datetime` object, so the f-string
renders it with `str()` (space separator), unlike the string hashed at append
time. -/
def verify_serial (doctor_id : String) (e : AuditEntry) : String :=
  audit_data_string e.timestamp.pystr doctor_id e.action e.details e.previous_hash

/-- The `for entry in entries` loop of `verify_audit_trail`: checks the link
to the running `previous_hash`, then the recomputed hash, stopping at the
first mismatch with that row's `id`; accumulates `verification_results`. -/
def verify_go (hash : String → String) (doctor_id : String) :
    List AuditEntry → String → List VerifyStatus →
    Bool × Option Nat × List VerifyStatus
  | [], _, acc => (true, none, acc)
  | e :: rest, previous_hash, acc =>
    if e.previous_hash ≠ previous_hash then
      (false, some e.id, acc)
    else if hash (verify_serial doctor_id e) ≠ e.current_hash then
      (false, some e.id, acc)
    else
      verify_go hash doctor_id rest e.current_hash (acc ++ [statusOf e])

/-- `VaccineDatabase.verify_audit_trail(doctor_id)` on the stream `chain`:
returns `(ok, first_bad_id, statuses)`. -/
def verify_audit_trail (hash : String → String) (doctor_id : String)
    (chain : List AuditEntry) : Bool × Option Nat × List VerifyStatus :=
  verify_go hash doctor_id chain sentinel []

/-- One row of the `temperature_logs` table (for a fixed `doctor_id`).
`temperature` is the float argument; `tempRepr` below renders it the way the
f-string does. -/
structure TempLogEntry where
  id : Nat
  timestamp : PyDateTime
  device_id : String
  temperature : ℚ
  vaccine_type : String
  location : String
  prev_hash : String
  current_hash : String
deriving Repr, DecidableEq

/-- The f-string of `add_temperature_log`:
`f"{timestamp}|{doctor_id}|{device_id}|{temperature}|{vaccine_type}|{location}|{previous_hash}"`,
with timestamp and temperature already rendered. -/
def temp_data_string (ts doctor_id device_id temp vaccine_type location
    previous_hash : String) : String :=
  ts ++ "|" ++ doctor_id ++ "|" ++ device_id ++ "|" ++ temp ++ "|" ++
    vaccine_type ++ "|" ++ location ++ "|" ++ previous_hash

/-- `VaccineDatabase.add_temperature_log(doctor_id, device_id, temperature,
vaccine_type, location)`.  `tempRepr` models Python's `str(float)` rendering
used by the f-string. -/
def add_temperature_log (hash : String → String) (tempRepr : ℚ → String)
    (doctor_id : String) (chain : List TempLogEntry) (newId : Nat)
    (now : PyDateTime) (device_id : String) (temperature : ℚ)
    (vaccine_type : String) (location : String) : List TempLogEntry :=
  let previous_hash :=
    match chain.getLast? with
    | some e => e.current_hash
    | none => sentinel
  let current_hash :=
    hash (temp_data_string now.iso doctor_id device_id (tempRepr temperature)
      vaccine_type location previous_hash)
  chain ++ [⟨newId, now, device_id, temperature, vaccine_type, location,
    previous_hash, current_hash⟩]

/-! ## Tampering with a stored audit record -/

/-- A single-field mutation of a stored audit record: one payload field is
overwritten, the two derived hash columns and the row id are untouched. -/
inductive Tamper where
  | setTimestamp (t : PyDateTime)
  | setAction (a : String)
  | setDetails (d : String)

/-- Apply the mutation to a row. -/
def applyTamper : Tamper → AuditEntry → AuditEntry
  | .setTimestamp t, e => { e with timestamp := t }
  | .setAction a, e => { e with action := a }
  | .setDetails dd, e => { e with details := dd }

/-- The mutation actually changes the mutated field's rendered value.  (For
the timestamp this is its `str()` rendering; on real `datetime` values that
rendering is injective, so any change of the value changes it.) -/
def tamperChanges : Tamper → AuditEntry → Prop
  | .setTimestamp t, e => t.pystr ≠ e.timestamp.pystr
  | .setAction a, e => a ≠ e.action
  | .setDetails dd, e => dd ≠ e.details


/-! ## The acceptance condition of `verify_audit_trail` -/

/-- What `verify_audit_trail` checks, spelled recursively along the chain
with the running `previous_hash`. -/
def chainOk (hash : String → String) (doctor_id : String) :
    String → List AuditEntry → Prop
  | _, [] => True
  | prev, e :: rest =>
      e.previous_hash = prev ∧
        hash (verify_serial doctor_id e) = e.current_hash ∧
        chainOk hash doctor_id e.current_hash rest


/-! ## Concrete sample data (used by witnesses and counterexamples)

`idHash` is an injective stand-in for SHA-256: every argument below that
involves the hash depends only on collision-freedom on the finitely many
strings in play, so the identity suffices and keeps everything computable. -/

def idHash : String → String := fun s => s

def tA : PyDateTime := ⟨"2025-01-01", "10:00:00"⟩

def tB : PyDateTime := ⟨"2025-01-01", "10:05:00"⟩

def tC : PyDateTime := ⟨"2025-01-01", "10:10:00"⟩

/-- A three-record chain exactly as `add_audit_entry` stores it. -/
def sampleAppended3 : List AuditEntry :=
  add_audit_entry idHash "DOC001"
    (add_audit_entry idHash "DOC001"
      (add_audit_entry idHash "DOC001" [] 1 tA "LOGIN" "") 2 tB "UPLOAD" "")
    3 tC "DOWNLOAD" ""

/-- A record whose stored hash was computed over the verify-side
serialization, so that `verify_audit_trail` accepts it. -/
def okEntryA : AuditEntry :=
  ⟨7, tA, "LOGIN", "ok", sentinel,
    idHash (audit_data_string tA.pystr "DOC001" "LOGIN" "ok" sentinel)⟩

/-- A second verify-accepted record chained onto `okEntryA`. -/
def okEntryB : AuditEntry :=
  ⟨8, tB, "UPLOAD", "file", okEntryA.current_hash,
    idHash (audit_data_string tB.pystr "DOC001" "UPLOAD" "file"
      okEntryA.current_hash)⟩


/-! ## Claim C3 (appends preserve chain linkage)

The two tables carry the same linkage structure with differently named
columns, so the linkage predicate is stated once, parametrised by the two
hash-column accessors. -/

/-- Backward linkage: the first record's stored previous-hash is `prev`, and
from then on each record's stored previous-hash is the preceding record's
stored current-hash. -/
def linkedBy {α : Type} (prevOf curOf : α → String) (prev : String) :
    List α → Prop
  | [] => True
  | e :: rest => prevOf e = prev ∧ linkedBy prevOf curOf (curOf e) rest

/-- The arguments of one `add_audit_entry` call: the `SERIAL` id assigned by
the insert, the `datetime.now()` value, and the two payload strings. -/
structure AuditOp where
  newId : Nat
  now : PyDateTime
  action : String
  details : String

/-- The arguments of one `add_temperature_log` call. -/
structure TempOp where
  newId : Nat
  now : PyDateTime
  device_id : String
  temperature : ℚ
  vaccine_type : String
  location : String

/-- The audit chain obtained from the empty stream by a sequence of
`add_audit_entry` calls. -/
def audit_chain_of (hash : String → String) (d : String)
    (ops : List AuditOp) : List AuditEntry :=
  ops.foldl
    (fun c op => add_audit_entry hash d c op.newId op.now op.action op.details) []

/-- The temperature chain obtained from the empty stream by a sequence of
`add_temperature_log` calls. -/
def temp_chain_of (hash : String → String) (tempRepr : ℚ → String) (d : String)
    (ops : List TempOp) : List TempLogEntry :=
  ops.foldl
    (fun c op => add_temperature_log hash tempRepr d c op.newId op.now
      op.device_id op.temperature op.vaccine_type op.location) []

/-- Every record's stored current-hash is the hash of the append-time
serialization of its payload fields joined with its stored previous-hash. -/
def auditHashed (hash : String → String) (d : String)
    (chain : List AuditEntry) : Prop :=
  ∀ e ∈ chain, e.current_hash =
    hash (audit_data_string e.timestamp.iso d e.action e.details e.previous_hash)

/-- The same hash equation for the temperature log. -/
def tempHashed (hash : String → String) (tempRepr : ℚ → String) (d : String)
    (chain : List TempLogEntry) : Prop :=
  ∀ e ∈ chain, e.current_hash =
    hash (temp_data_string e.timestamp.iso d e.device_id (tempRepr e.temperature)
      e.vaccine_type e.location e.prev_hash)

def opA : AuditOp := ⟨1, tA, "LOGIN", ""⟩

def opB : AuditOp := ⟨2, tB, "UPLOAD", ""⟩

def topA : TempOp := ⟨1, tA, "DEV1", 5, "General", "Unknown"⟩

def topB : TempOp := ⟨2, tB, "DEV1", 6, "General", "Unknown"⟩

/-- Stand-in for Python's `str(float)` in concrete witnesses. -/
def tempReprD : ℚ → String := fun _ => "5.0"


/-! ## Lemmas: `firstIdx` -/

theorem firstIdx_eq_none (p : ℚ → Bool) :
    ∀ l : List ℚ, (∀ x ∈ l, p x = false) → firstIdx p l = none
  | [], _ => rfl
  | x :: xs, h => by
      have hx : p x = false := h x (by simp)
      have ih := firstIdx_eq_none p xs (fun y hy => h y (by simp [hy]))
      simp [firstIdx, hx, ih]

theorem firstIdx_eq_some (p : ℚ → Bool) :
    ∀ (l : List ℚ) (i : Nat) (hi : i < l.length),
      p (l.get ⟨i, hi⟩) = true →
      (∀ j (hj : j < l.length), j < i → p (l.get ⟨j, hj⟩) = false) →
      firstIdx p l = some i
  | x :: xs, 0, _, hp, _ => by
      simp only [List.get] at hp
      simp [firstIdx, hp]
  | x :: xs, i + 1, hi, hp, hmin => by
      have hx : p x = false := hmin 0 (by simp) (Nat.succ_pos i)
      have ih := firstIdx_eq_some p xs i (Nat.lt_of_succ_lt_succ hi)
        (by exact hp)
        (fun j hj hji => hmin (j + 1) (Nat.succ_lt_succ hj) (Nat.succ_lt_succ hji))
      simp [firstIdx, hx, ih]

theorem firstIdx_isSome (p : ℚ → Bool) :
    ∀ l : List ℚ, (∃ i, ∃ hi : i < l.length, p (l.get ⟨i, hi⟩) = true) →
      ∃ j, firstIdx p l = some j
  | [], h => by
      obtain ⟨i, hi, _⟩ := h
      exact absurd hi (Nat.not_lt_zero i)
  | x :: xs, h => by
      by_cases hx : p x = true
      · exact ⟨0, by simp [firstIdx, hx]⟩
      · obtain ⟨i, hi, hp⟩ := h
        match i, hi, hp with
        | 0, hi, hp =>
            exact absurd hp hx
        | i + 1, hi, hp =>
            obtain ⟨j, hj⟩ :=
              firstIdx_isSome p xs ⟨i, Nat.lt_of_succ_lt_succ hi, hp⟩
            exact ⟨j + 1, by simp [firstIdx, hx, hj]⟩

/-! ## Lemmas: the two actual-breach tiers of `check_breach_risk` -/

theorem check_breach_risk_high (cfg : PredictorConfig) (preds : List ℚ) (i : Nat)
    (h : firstIdx (fun v => decide (cfg.safe_max < v)) preds = some i) :
    check_breach_risk cfg (some preds) =
      (some "HIGH_TEMP",
       some (if (i + 1) * sample_interval ≤ 60 then "CRITICAL" else "WARNING"),
       some ((i + 1) * sample_interval)) := by
  simp only [check_breach_risk, h]

theorem check_breach_risk_low (cfg : PredictorConfig) (preds : List ℚ) (i : Nat)
    (h1 : firstIdx (fun v => decide (cfg.safe_max < v)) preds = none)
    (h2 : firstIdx (fun v => decide (v < cfg.safe_min)) preds = some i) :
    check_breach_risk cfg (some preds) =
      (some "LOW_TEMP",
       some (if (i + 1) * sample_interval ≤ 60 then "CRITICAL" else "WARNING"),
       some ((i + 1) * sample_interval)) := by
  simp only [check_breach_risk, h1, h2]

/-! ## Claims C4, C6, C7 (breach classifier) -/

/-- Claim C4: actual breaches outrank warnings.  If any forecast value strictly
exceeds `safe_max`, `check_breach_risk` reports a `HIGH_TEMP` actual breach
(with the breach tier's minute/severity computation), no matter what any other
value — in particular an earlier value inside the lower warning margin —
looks like.  The witness instantiates the spec's scenario: index 3 above
`safe_max`, index 1 inside the warning margin of `safe_min`. -/
theorem claim_C4 (cfg : PredictorConfig) (preds : List ℚ)
    (h : ∃ i, ∃ hi : i < preds.length, cfg.safe_max < preds.get ⟨i, hi⟩) :
    ∃ m : Nat, check_breach_risk cfg (some preds) =
      (some "HIGH_TEMP", some (if m ≤ 60 then "CRITICAL" else "WARNING"),
        some m) := by
  obtain ⟨j, hj⟩ := firstIdx_isSome (fun v => decide (cfg.safe_max < v)) preds
    (by obtain ⟨i, hi, hp⟩ := h; exact ⟨i, hi, by simpa using hp⟩)
  exact ⟨(j + 1) * sample_interval, check_breach_risk_high cfg preds j hj⟩

/-- Witness for C4: the spec's scenario, `[5, 9/4, 5, 9]` with defaults —
index 1 (value 2.25) is inside the lower warning margin (2, 2.5), index 3
(value 9) exceeds `safe_max = 8`; the classifier reports the HIGH_TEMP
actual breach. -/
theorem claim_C4_witness :
    ∃ m : Nat, check_breach_risk defaultConfig (some [5, 9/4, 5, 9]) =
      (some "HIGH_TEMP", some (if m ≤ 60 then "CRITICAL" else "WARNING"),
        some m) :=
  claim_C4 defaultConfig [5, 9/4, 5, 9]
    ⟨3, by norm_num, by
      show defaultConfig.safe_max < (9 : ℚ)
      norm_num [defaultConfig]⟩

/-- Claim C6: comparisons are strict.  (a) If every forecast value lies inside the
closed safe range `[safe_min, safe_max]` — boundary values allowed — neither
actual-breach tier fires, so the severity is never `CRITICAL` (a value exactly
equal to `safe_max` or `safe_min` is not a breach).  (b) If every value lies
inside the closed margin band `[safe_min + 0.5, safe_max - 0.5]`, nothing
fires at all: a value exactly equal to `safe_max - 0.5` (or `safe_min + 0.5`)
is not a warning either. -/
theorem claim_C6 (cfg : PredictorConfig) (preds : List ℚ) :
    ((∀ v ∈ preds, cfg.safe_min ≤ v ∧ v ≤ cfg.safe_max) →
      (check_breach_risk cfg (some preds)).2.1 ≠ some "CRITICAL") ∧
    ((∀ v ∈ preds, cfg.safe_min + 1/2 ≤ v ∧ v ≤ cfg.safe_max - 1/2) →
      check_breach_risk cfg (some preds) = (none, none, none)) := by
  constructor
  · intro hin
    have h1 : firstIdx (fun v => decide (cfg.safe_max < v)) preds = none :=
      firstIdx_eq_none _ _ (fun x hx => by simp [not_lt.2 (hin x hx).2])
    have h2 : firstIdx (fun v => decide (v < cfg.safe_min)) preds = none :=
      firstIdx_eq_none _ _ (fun x hx => by simp [not_lt.2 (hin x hx).1])
    simp only [check_breach_risk, h1, h2]
    rcases hu : firstIdx (fun v => decide (cfg.safe_max - 1/2 < v)) preds with _ | i <;>
    rcases hl : firstIdx (fun v => decide (v < cfg.safe_min + 1/2)) preds with _ | j <;>
      simp <;> split_ifs <;> simp
  · intro hin
    have h1 : firstIdx (fun v => decide (cfg.safe_max < v)) preds = none :=
      firstIdx_eq_none _ _ (fun x hx => by
        have h := hin x hx
        simp only [decide_eq_false_iff_not, not_lt]
        linarith [h.2])
    have h2 : firstIdx (fun v => decide (v < cfg.safe_min)) preds = none :=
      firstIdx_eq_none _ _ (fun x hx => by
        have h := hin x hx
        simp only [decide_eq_false_iff_not, not_lt]
        linarith [h.1])
    have h3 : firstIdx (fun v => decide (cfg.safe_max - 1/2 < v)) preds = none :=
      firstIdx_eq_none _ _ (fun x hx => by
        have h := hin x hx
        simp only [decide_eq_false_iff_not, not_lt]
        linarith [h.2])
    have h4 : firstIdx (fun v => decide (v < cfg.safe_min + 1/2)) preds = none :=
      firstIdx_eq_none _ _ (fun x hx => by
        have h := hin x hx
        simp only [decide_eq_false_iff_not, not_lt]
        linarith [h.1])
    simp only [check_breach_risk, h1, h2, h3, h4]

/-- Witness for C6: with defaults, `[8, 2]` (both values exactly on the safe
bounds, at indices whose breach minutes would be ≤ 60) yields no CRITICAL
severity, and `[15/2, 5/2]` (values exactly on the warning margins) yields no
alert at all. -/
theorem claim_C6_witness :
    (check_breach_risk defaultConfig (some [8, 2])).2.1 ≠ some "CRITICAL" ∧
    check_breach_risk defaultConfig (some [15/2, 5/2]) = (none, none, none) :=
  ⟨(claim_C6 defaultConfig [8, 2]).1
      (by intro v hv; fin_cases hv <;> norm_num [defaultConfig]),
   (claim_C6 defaultConfig [15/2, 5/2]).2
      (by intro v hv; fin_cases hv <;> norm_num [defaultConfig])⟩

/-- Claim C7: whenever an actual breach is reported, the reported minutes equal
`(first offending index + 1) * sample_interval` and the severity is CRITICAL
exactly when those minutes are ≤ 60.  Part (a): if `i₀` is the first index
whose value strictly exceeds `safe_max`, the result is the HIGH_TEMP triple
for `i₀`.  Part (b): if no value exceeds `safe_max` and `i₀` is the first
index whose value is strictly below `safe_min`, the result is the LOW_TEMP
triple for `i₀`. -/
theorem claim_C7 (cfg : PredictorConfig) (preds : List ℚ) :
    (∀ i₀ (h₀ : i₀ < preds.length), cfg.safe_max < preds.get ⟨i₀, h₀⟩ →
      (∀ j (hj : j < preds.length), j < i₀ → preds.get ⟨j, hj⟩ ≤ cfg.safe_max) →
      check_breach_risk cfg (some preds) =
        (some "HIGH_TEMP",
         some (if (i₀ + 1) * sample_interval ≤ 60 then "CRITICAL" else "WARNING"),
         some ((i₀ + 1) * sample_interval))) ∧
    (∀ i₀ (h₀ : i₀ < preds.length),
      (∀ j (hj : j < preds.length), preds.get ⟨j, hj⟩ ≤ cfg.safe_max) →
      preds.get ⟨i₀, h₀⟩ < cfg.safe_min →
      (∀ j (hj : j < preds.length), j < i₀ → cfg.safe_min ≤ preds.get ⟨j, hj⟩) →
      check_breach_risk cfg (some preds) =
        (some "LOW_TEMP",
         some (if (i₀ + 1) * sample_interval ≤ 60 then "CRITICAL" else "WARNING"),
         some ((i₀ + 1) * sample_interval))) := by
  constructor
  · intro i₀ h₀ hbr hfirst
    exact check_breach_risk_high cfg preds i₀
      (firstIdx_eq_some _ preds i₀ h₀ (by simpa using hbr)
        (fun j hj hji => by simpa using not_lt.2 (hfirst j hj hji)))
  · intro i₀ h₀ hall hbr hfirst
    refine check_breach_risk_low cfg preds i₀ ?_ ?_
    · refine firstIdx_eq_none _ preds (fun x hx => ?_)
      obtain ⟨n, rfl⟩ := List.mem_iff_get.mp hx
      simpa using not_lt.2 (hall n.1 n.2)
    · exact firstIdx_eq_some _ preds i₀ h₀ (by simpa using hbr)
        (fun j hj hji => by simpa using not_lt.2 (hfirst j hj hji))

/-- Witness for C7: with defaults, `[9]` (first and only index above
`safe_max`) gives `(HIGH_TEMP, CRITICAL, 5)` and `[1]` gives
`(LOW_TEMP, CRITICAL, 5)`. -/
theorem claim_C7_witness :
    check_breach_risk defaultConfig (some [9]) =
      (some "HIGH_TEMP", some "CRITICAL", some 5) ∧
    check_breach_risk defaultConfig (some [1]) =
      (some "LOW_TEMP", some "CRITICAL", some 5) := by
  constructor
  · have h := (claim_C7 defaultConfig [9]).1 0 (by norm_num)
      (by show defaultConfig.safe_max < (9 : ℚ); norm_num [defaultConfig])
      (fun j hj hj0 => absurd hj0 (Nat.not_lt_zero j))
    simpa [sample_interval] using h
  · have h := (claim_C7 defaultConfig [1]).2 0 (by norm_num)
      (by intro j hj
          have hj1 : j = 0 := by
            have : j < 1 := by simpa using hj
            omega
          subst hj1
          show (1 : ℚ) ≤ defaultConfig.safe_max
          norm_num [defaultConfig])
      (by show (1 : ℚ) < defaultConfig.safe_min; norm_num [defaultConfig])
      (fun j hj hj0 => absurd hj0 (Nat.not_lt_zero j))
    simpa [sample_interval] using h

/-! ## Claims C5, C8, C10 (forecast engine) -/

/-- Counterexample to C5 as stated: on an *empty* reading history,
`predict_temperature` does **not** signal an absent forecast — it returns a
present (fabricated) forecast vector, the naive ramp from the default
temperature 5.0. -/
theorem claim_C5_counterexample :
    ((predict_temperature (fun _ => 0) 0 []).1).isSome = true ∧
    (predict_temperature (fun _ => 0) 0 []).1 =
      some ((List.range 24).map fun i : Nat => 5 + ((i : ℚ) + 1) * (1/20)) := by
  exact ⟨rfl, rfl⟩

/-- Claim C5 as amended: for an empty reading history, `predict_temperature` does
not raise; it returns the naive ramp of length 24 built from the default
temperature 5.0 (`5.0 + k·0.05` at step `k`, `k` from 1) with reported
accuracy 75.0 — a present forecast, not an absent one. -/
theorem claim_C5_amended (nextTemp : List ℚ → ℚ) (accuracy : ℚ) :
    predict_temperature nextTemp accuracy [] =
      (some ((List.range 24).map fun i : Nat => 5 + ((i : ℚ) + 1) * (1/20)), 75) :=
  rfl

/-- Claim C8: on a non-empty history of fewer than 20 readings,
`predict_temperature` returns the naive forecast of length exactly 24 whose
k-th value (k from 1) is the last observed temperature plus `k * 0.05`, with
reported accuracy exactly 75.0. -/
theorem claim_C8 (nextTemp : List ℚ → ℚ) (accuracy : ℚ) (readings : List ℚ)
    (h0 : readings ≠ []) (h20 : readings.length < 20) :
    (predict_temperature nextTemp accuracy readings).2 = 75 ∧
    ∃ l, (predict_temperature nextTemp accuracy readings).1 = some l ∧
      l.length = 24 ∧
      ∀ k : Nat, k < 24 →
        l[k]? = some (readings.getLast h0 + ((k : ℚ) + 1) * (1/20)) := by
  simp only [predict_temperature, if_pos h20]
  refine ⟨by trivial, _, rfl, by simp [steps, prediction_horizon, sample_interval], ?_⟩
  intro k hk
  rw [List.getElem?_map, show steps = 24 from rfl, List.getElem?_range hk]
  simp [List.getLast?_eq_getLast _ h0]

/-- Witness for C8: three readings, all 5.0 °C — the ramp starts at 5.05 and
climbs by 0.05 per step; accuracy is 75.0. -/
theorem claim_C8_witness :
    (predict_temperature (fun _ => 0) 0 [5, 5, 5]).2 = 75 ∧
    ∃ l, (predict_temperature (fun _ => 0) 0 [5, 5, 5]).1 = some l ∧
      l.length = 24 ∧
      ∀ k : Nat, k < 24 →
        l[k]? =
          some (([5, 5, 5] : List ℚ).getLast (by simp) + ((k : ℚ) + 1) * (1/20)) :=
  claim_C8 (fun _ => 0) 0 [5, 5, 5] (by simp) (by simp)

/-! Length lemmas for the model-fit path. -/

theorem ewm_go_length :
    ∀ (alpha num den : ℚ) (xs : List ℚ),
      (ewm_go alpha num den xs).length = xs.length
  | _, _, _, [] => rfl
  | alpha, num, den, x :: xs => by
      simp [ewm_go, ewm_go_length alpha _ _ xs]

theorem smooth_temperature_length (xs : List ℚ) :
    (smooth_temperature xs).length = xs.length :=
  ewm_go_length _ _ _ xs

theorem forecast_loop_length (nextTemp : List ℚ → ℚ) :
    ∀ (k : Nat) (w : List ℚ), (forecast_loop nextTemp k w).length = k
  | 0, _ => rfl
  | k + 1, w => by simp [forecast_loop, forecast_loop_length nextTemp k]

/-- Claim C10: the infeasible-window branch is unreachable once the model-fit
precondition holds.  For any history of at least 20 readings — and for every
per-step model function, so in particular for the concrete sklearn one —
`lags = min 12 (n / 3)` satisfies `lags + 5 ≤ n`, hence `predict_temperature`
never takes its `(none, ...)` branch and returns a forecast of length exactly
24. -/
theorem claim_C10 (nextTemp : List ℚ → ℚ) (accuracy : ℚ) (readings : List ℚ)
    (h : 20 ≤ readings.length) :
    ∃ l, (predict_temperature nextTemp accuracy readings).1 = some l ∧
      l.length = 24 := by
  have h1 : ¬ readings.length < 20 := by omega
  have hs : (smooth_temperature readings).length = readings.length :=
    smooth_temperature_length readings
  have h2 : ¬ (smooth_temperature readings).length <
      min 12 (readings.length / 3) + 5 := by
    have hm := Nat.min_le_right 12 (readings.length / 3)
    omega
  refine ⟨forecast_loop nextTemp steps
      ((smooth_temperature readings).drop
        ((smooth_temperature readings).length - min 12 (readings.length / 3))),
    ?_, ?_⟩
  · simp only [predict_temperature, if_neg h1, if_neg h2]
  · rw [forecast_loop_length]
    rfl

/-- Witness for C10: twenty readings of 5.0 °C produce a present forecast of
length 24. -/
theorem claim_C10_witness :
    ∃ l, (predict_temperature (fun _ => 0) 0 (List.replicate 20 5)).1 = some l ∧
      l.length = 24 :=
  claim_C10 (fun _ => 0) 0 (List.replicate 20 5) (by simp)

/-! ## Lemmas: string-level facts about the serializations -/

theorem str_append_cancel_right {a b t : String} (h : a ++ t = b ++ t) : a = b := by
  have h2 : (a ++ t).data = (b ++ t).data := by rw [h]
  simp only [String.data_append] at h2
  exact congrArg String.mk (List.append_cancel_right h2)

theorem str_append_cancel_left {t a b : String} (h : t ++ a = t ++ b) : a = b := by
  have h2 : (t ++ a).data = (t ++ b).data := by rw [h]
  simp only [String.data_append] at h2
  exact congrArg String.mk (List.append_cancel_left h2)

/-- The `isoformat()` and `str()` renderings of one and the same datetime
always differ: they disagree exactly at the separator character. -/
theorem iso_ne_pystr (t : PyDateTime) : t.iso ≠ t.pystr := by
  intro h
  have h2 : (t.date ++ "T" ++ t.time).data = (t.date ++ " " ++ t.time).data := by
    simpa [PyDateTime.iso, PyDateTime.pystr] using congrArg String.data h
  simp only [String.data_append] at h2
  have h3 := List.append_cancel_right h2
  have h4 := List.append_cancel_left h3
  simp at h4

/-- Changing only the (already rendered) timestamp field changes the
serialization: the pipe-joined string determines that field once the four
remaining fields are fixed. -/
theorem audit_data_string_ts_inj {ts1 ts2 d a dd p : String}
    (h : audit_data_string ts1 d a dd p = audit_data_string ts2 d a dd p) :
    ts1 = ts2 := by
  simp only [audit_data_string] at h
  exact str_append_cancel_right (str_append_cancel_right (str_append_cancel_right
    (str_append_cancel_right (str_append_cancel_right (str_append_cancel_right
      (str_append_cancel_right (str_append_cancel_right h)))))))

/-- Changing only the action field changes the serialization. -/
theorem audit_data_string_action_inj {ts d a1 a2 dd p : String}
    (h : audit_data_string ts d a1 dd p = audit_data_string ts d a2 dd p) :
    a1 = a2 := by
  simp only [audit_data_string] at h
  exact str_append_cancel_left (str_append_cancel_right (str_append_cancel_right
    (str_append_cancel_right (str_append_cancel_right h))))

/-- Changing only the details field changes the serialization. -/
theorem audit_data_string_details_inj {ts d a dd1 dd2 p : String}
    (h : audit_data_string ts d a dd1 p = audit_data_string ts d a dd2 p) :
    dd1 = dd2 := by
  simp only [audit_data_string] at h
  exact str_append_cancel_left (str_append_cancel_right (str_append_cancel_right h))

theorem applyTamper_id (m : Tamper) (e : AuditEntry) :
    (applyTamper m e).id = e.id := by cases m <;> rfl

theorem applyTamper_previous (m : Tamper) (e : AuditEntry) :
    (applyTamper m e).previous_hash = e.previous_hash := by cases m <;> rfl

theorem applyTamper_current (m : Tamper) (e : AuditEntry) :
    (applyTamper m e).current_hash = e.current_hash := by cases m <;> rfl

/-- A genuine single-field mutation changes the serialization that
`verify_audit_trail` recomputes for the row. -/
theorem verify_serial_tamper_ne (d : String) (m : Tamper) (e : AuditEntry)
    (hm : tamperChanges m e) :
    verify_serial d (applyTamper m e) ≠ verify_serial d e := by
  cases m with
  | setTimestamp t =>
      intro h
      simp only [verify_serial, applyTamper] at h
      exact hm (audit_data_string_ts_inj h)
  | setAction a =>
      intro h
      simp only [verify_serial, applyTamper] at h
      exact hm (audit_data_string_action_inj h)
  | setDetails dd =>
      intro h
      simp only [verify_serial, applyTamper] at h
      exact hm (audit_data_string_details_inj h)

theorem chainOk_of_verify_go (hash : String → String) (d : String) :
    ∀ (chain : List AuditEntry) (prev : String) (acc : List VerifyStatus),
      (verify_go hash d chain prev acc).1 = true → chainOk hash d prev chain
  | [], _, _, _ => trivial
  | e :: rest, prev, acc, h => by
      by_cases h1 : e.previous_hash = prev
      · by_cases h2 : hash (verify_serial d e) = e.current_hash
        · refine ⟨h1, h2,
            chainOk_of_verify_go hash d rest e.current_hash (acc ++ [statusOf e]) ?_⟩
          simpa [verify_go, h1, h2] using h
        · simp [verify_go, h1, h2] at h
      · simp [verify_go, h1] at h

/-- Walking a verified chain with one record at position `i` tampered: the
scan accepts the first `i` records, then stops at the tampered one with its
row id and the statuses accumulated so far. -/
theorem verify_go_tamper (hash : String → String) (hinj : Function.Injective hash)
    (d : String) :
    ∀ (chain : List AuditEntry) (i : Nat) (hi : i < chain.length) (prev : String)
      (acc : List VerifyStatus) (m : Tamper),
      chainOk hash d prev chain →
      tamperChanges m (chain.get ⟨i, hi⟩) →
      verify_go hash d (chain.set i (applyTamper m (chain.get ⟨i, hi⟩))) prev acc =
        (false, some (chain.get ⟨i, hi⟩).id, acc ++ (chain.take i).map statusOf)
  | e :: rest, 0, hi, prev, acc, m, hok, hm => by
      obtain ⟨h1, h2, _⟩ := hok
      have hprev : (applyTamper m e).previous_hash = prev := by
        rw [applyTamper_previous]; exact h1
      have hne : hash (verify_serial d (applyTamper m e)) ≠
          (applyTamper m e).current_hash := by
        rw [applyTamper_current]
        intro hcontra
        exact verify_serial_tamper_ne d m e hm (hinj (hcontra.trans h2.symm))
      simp [verify_go, hprev, hne, applyTamper_id]
  | e :: rest, i + 1, hi, prev, acc, m, hok, hm => by
      obtain ⟨h1, h2, h3⟩ := hok
      have ih := verify_go_tamper hash hinj d rest i (Nat.lt_of_succ_lt_succ hi)
        e.current_hash (acc ++ [statusOf e]) m h3 hm
      simp only [List.get_eq_getElem] at ih
      simp [verify_go, h1, h2, ih, List.map_take]

/-! ## Claims C1 and C2 (audit chain round trip and tamper localization) -/

/-- Claim C1, the code defect it reveals: on a chain holding a *single, untampered* record
freshly written by `add_audit_entry`, `verify_audit_trail` already fails at
that record.  `add_audit_entry` hashes the `isoformat()` rendering of the
timestamp (`'T'` separator), while `verify_audit_trail` re-renders the
`TIMESTAMP` column — returned by the driver as a `datetime` object — through
an f-string (`str()`, space separator); the two serializations always differ,
so the recomputed hash never matches the stored one.  The result is
`ok = false` with the record's id and an empty status list, for every
collision-free hash — the opposite of the claimed always-successful
round trip. -/
theorem claim_C1 (hash : String → String) (hinj : Function.Injective hash)
    (doctor_id : String) (newId : Nat) (now : PyDateTime)
    (action : String) (details : String) :
    verify_audit_trail hash doctor_id
        (add_audit_entry hash doctor_id [] newId now action details) =
      (false, some newId, []) := by
  have hne : hash (audit_data_string now.pystr doctor_id action details sentinel) ≠
      hash (audit_data_string now.iso doctor_id action details sentinel) := by
    intro h
    exact iso_ne_pystr now (audit_data_string_ts_inj (hinj h)).symm
  simp [verify_audit_trail, add_audit_entry, verify_go, verify_serial, hne]

/-- Witness for C1: one concrete append (`id` 1, a concrete timestamp,
action `"LOGIN"`, empty details) under an injective stand-in hash; verifying
immediately afterwards yields `(false, some 1, [])`. -/
theorem claim_C1_witness :
    verify_audit_trail idHash "DOC001"
        (add_audit_entry idHash "DOC001" [] 1 tA "LOGIN" "") =
      (false, some 1, []) :=
  claim_C1 idHash (fun _ _ h => h) "DOC001" 1 tA "LOGIN" ""

/-- Counterexample to C2 as stated: on a chain of three records stored by
`add_audit_entry`, mutating the *third* record's action field and re-running
`verify_audit_trail` reports the *first* record (id 1), not the mutated one
(id 3, position 2), and returns no statuses — because the timestamp
re-rendering defect (claim C1) makes the scan fail before it ever reaches the
tampered record. -/
theorem claim_C2_counterexample :
    verify_audit_trail idHash "DOC001"
        (sampleAppended3.set 2
          (applyTamper (Tamper.setAction "FORGED")
            (sampleAppended3.get ⟨2, by decide⟩))) =
      (false, some 1, []) ∧
    (sampleAppended3.get ⟨2, by decide⟩).id = 3 := by
  constructor
  · decide
  · decide

/-- Claim C2 as amended: on any stored chain that `verify_audit_trail` currently
*accepts* (`ok = true`), mutating any one payload field of the record at
position `i` — timestamp, action or details, leaving the derived hashes
untouched, with the new rendered field value actually different — makes
verify fail exactly there: `ok = false`, `first_bad_index` equal to that
record's stored id, and the returned statuses are precisely the `VALID`
entries for the `i` records before it.  (Requires a collision-free hash;
chains as stored by `add_audit_entry` are excluded by the `ok = true`
hypothesis because of the defect recorded under C1.) -/
theorem claim_C2_amended (hash : String → String) (hinj : Function.Injective hash)
    (doctor_id : String) (chain : List AuditEntry)
    (hok : (verify_audit_trail hash doctor_id chain).1 = true)
    (i : Nat) (hi : i < chain.length) (m : Tamper)
    (hm : tamperChanges m (chain.get ⟨i, hi⟩)) :
    verify_audit_trail hash doctor_id
        (chain.set i (applyTamper m (chain.get ⟨i, hi⟩))) =
      (false, some (chain.get ⟨i, hi⟩).id, (chain.take i).map statusOf) := by
  have hco := chainOk_of_verify_go hash doctor_id chain sentinel [] hok
  simpa [verify_audit_trail] using
    verify_go_tamper hash hinj doctor_id chain i hi sentinel [] m hco hm

/-- Witness for C2: a concrete two-record chain whose hashes were computed
over the verify-side serialization (so `verify` accepts it); mutating the
second record's action makes verify fail at that record (id 8) with exactly
the first record's `VALID` status returned. -/
theorem claim_C2_witness :
    verify_audit_trail idHash "DOC001"
        ([okEntryA, okEntryB].set 1
          (applyTamper (Tamper.setAction "FORGED")
            (([okEntryA, okEntryB] : List AuditEntry).get ⟨1, by decide⟩))) =
      (false, some 8, [statusOf okEntryA]) :=
  claim_C2_amended idHash (fun _ _ h => h) "DOC001" [okEntryA, okEntryB]
    (by decide) 1 (by decide) (Tamper.setAction "FORGED")
    (by simp [tamperChanges, okEntryB])

/-! Lemmas about `linkedBy`. -/

theorem linkedBy_snoc {α : Type} (prevOf curOf : α → String) (e : α) :
    ∀ (chain : List α) (prev : String),
      linkedBy prevOf curOf prev chain →
      prevOf e = (match chain.getLast? with
        | some x => curOf x
        | none => prev) →
      linkedBy prevOf curOf prev (chain ++ [e])
  | [], prev, _, he => ⟨by simpa using he, trivial⟩
  | f :: rest, prev, hl, he => by
      refine ⟨hl.1, linkedBy_snoc prevOf curOf e rest (curOf f) hl.2 ?_⟩
      cases rest with
      | nil => simpa using he
      | cons g gs => simpa [List.getLast?_cons_cons] using he

theorem linkedBy_get_zero {α : Type} (prevOf curOf : α → String) :
    ∀ (chain : List α) (prev : String), linkedBy prevOf curOf prev chain →
      ∀ h0 : 0 < chain.length, prevOf (chain.get ⟨0, h0⟩) = prev
  | _ :: _, _, h, _ => h.1

theorem linkedBy_get_succ {α : Type} (prevOf curOf : α → String) :
    ∀ (chain : List α) (prev : String), linkedBy prevOf curOf prev chain →
      ∀ i (hi : i + 1 < chain.length),
        prevOf (chain.get ⟨i + 1, hi⟩) =
          curOf (chain.get ⟨i, Nat.lt_of_succ_lt hi⟩)
  | e :: rest, _, h, 0, hi =>
      linkedBy_get_zero prevOf curOf rest (curOf e) h.2
        (Nat.lt_of_succ_lt_succ hi)
  | e :: rest, _, h, i + 1, hi =>
      linkedBy_get_succ prevOf curOf rest (curOf e) h.2 i
        (Nat.lt_of_succ_lt_succ hi)

/-! Preservation of the two invariants by a single append. -/

theorem linked_add_audit (hash : String → String) (d : String)
    (chain : List AuditEntry) (newId : Nat) (now : PyDateTime)
    (action details : String)
    (h : linkedBy AuditEntry.previous_hash AuditEntry.current_hash sentinel chain) :
    linkedBy AuditEntry.previous_hash AuditEntry.current_hash sentinel
      (add_audit_entry hash d chain newId now action details) := by
  refine linkedBy_snoc _ _ _ chain sentinel h ?_
  cases hc : chain.getLast? <;> simp [hc]

theorem linked_add_temp (hash : String → String) (tempRepr : ℚ → String)
    (d : String) (chain : List TempLogEntry) (newId : Nat) (now : PyDateTime)
    (device_id : String) (temperature : ℚ) (vaccine_type location : String)
    (h : linkedBy TempLogEntry.prev_hash TempLogEntry.current_hash sentinel chain) :
    linkedBy TempLogEntry.prev_hash TempLogEntry.current_hash sentinel
      (add_temperature_log hash tempRepr d chain newId now device_id temperature
        vaccine_type location) := by
  refine linkedBy_snoc _ _ _ chain sentinel h ?_
  cases hc : chain.getLast? <;> simp [hc]

theorem hashed_add_audit (hash : String → String) (d : String)
    (chain : List AuditEntry) (newId : Nat) (now : PyDateTime)
    (action details : String) (h : auditHashed hash d chain) :
    auditHashed hash d (add_audit_entry hash d chain newId now action details) := by
  intro e he
  simp only [add_audit_entry, List.mem_append, List.mem_singleton] at he
  rcases he with he | rfl
  · exact h e he
  · rfl

theorem hashed_add_temp (hash : String → String) (tempRepr : ℚ → String)
    (d : String) (chain : List TempLogEntry) (newId : Nat) (now : PyDateTime)
    (device_id : String) (temperature : ℚ) (vaccine_type location : String)
    (h : tempHashed hash tempRepr d chain) :
    tempHashed hash tempRepr d
      (add_temperature_log hash tempRepr d chain newId now device_id temperature
        vaccine_type location) := by
  intro e he
  simp only [add_temperature_log, List.mem_append, List.mem_singleton] at he
  rcases he with he | rfl
  · exact h e he
  · rfl

/-! Preservation along a whole sequence of appends. -/

theorem audit_inv_foldl (hash : String → String) (d : String) :
    ∀ (ops : List AuditOp) (ch : List AuditEntry),
      linkedBy AuditEntry.previous_hash AuditEntry.current_hash sentinel ch →
      auditHashed hash d ch →
      linkedBy AuditEntry.previous_hash AuditEntry.current_hash sentinel
          (ops.foldl (fun c op =>
            add_audit_entry hash d c op.newId op.now op.action op.details) ch) ∧
        auditHashed hash d (ops.foldl (fun c op =>
          add_audit_entry hash d c op.newId op.now op.action op.details) ch)
  | [], ch, h1, h2 => ⟨h1, h2⟩
  | op :: ops, ch, h1, h2 => by
      simp only [List.foldl_cons]
      exact audit_inv_foldl hash d ops _
        (linked_add_audit hash d ch op.newId op.now op.action op.details h1)
        (hashed_add_audit hash d ch op.newId op.now op.action op.details h2)

theorem temp_inv_foldl (hash : String → String) (tempRepr : ℚ → String)
    (d : String) :
    ∀ (ops : List TempOp) (ch : List TempLogEntry),
      linkedBy TempLogEntry.prev_hash TempLogEntry.current_hash sentinel ch →
      tempHashed hash tempRepr d ch →
      linkedBy TempLogEntry.prev_hash TempLogEntry.current_hash sentinel
          (ops.foldl (fun c op =>
            add_temperature_log hash tempRepr d c op.newId op.now op.device_id
              op.temperature op.vaccine_type op.location) ch) ∧
        tempHashed hash tempRepr d (ops.foldl (fun c op =>
          add_temperature_log hash tempRepr d c op.newId op.now op.device_id
            op.temperature op.vaccine_type op.location) ch)
  | [], ch, h1, h2 => ⟨h1, h2⟩
  | op :: ops, ch, h1, h2 => by
      simp only [List.foldl_cons]
      exact temp_inv_foldl hash tempRepr d ops _
        (linked_add_temp hash tempRepr d ch op.newId op.now op.device_id
          op.temperature op.vaccine_type op.location h1)
        (hashed_add_temp hash tempRepr d ch op.newId op.now op.device_id
          op.temperature op.vaccine_type op.location h2)

/-- Claim C3: every chain built from the empty stream purely by appends — any
sequence of `add_audit_entry` calls, and likewise any sequence of
`add_temperature_log` calls — satisfies the chain-linkage invariant:
record 0's stored previous-hash is the 64-zero sentinel, record `i+1`'s
stored previous-hash is record `i`'s stored current-hash, and every record's
stored current-hash is the hash of the append-time serialization of its
payload fields joined with its stored previous-hash. -/
theorem claim_C3 (hash : String → String) (tempRepr : ℚ → String) (d : String)
    (ops : List AuditOp) (tops : List TempOp) :
    (∀ h0 : 0 < (audit_chain_of hash d ops).length,
        ((audit_chain_of hash d ops).get ⟨0, h0⟩).previous_hash = sentinel) ∧
    (∀ i (hi : i + 1 < (audit_chain_of hash d ops).length),
        ((audit_chain_of hash d ops).get ⟨i + 1, hi⟩).previous_hash =
          ((audit_chain_of hash d ops).get ⟨i, Nat.lt_of_succ_lt hi⟩).current_hash) ∧
    auditHashed hash d (audit_chain_of hash d ops) ∧
    (∀ h0 : 0 < (temp_chain_of hash tempRepr d tops).length,
        ((temp_chain_of hash tempRepr d tops).get ⟨0, h0⟩).prev_hash = sentinel) ∧
    (∀ i (hi : i + 1 < (temp_chain_of hash tempRepr d tops).length),
        ((temp_chain_of hash tempRepr d tops).get ⟨i + 1, hi⟩).prev_hash =
          ((temp_chain_of hash tempRepr d tops).get
            ⟨i, Nat.lt_of_succ_lt hi⟩).current_hash) ∧
    tempHashed hash tempRepr d (temp_chain_of hash tempRepr d tops) := by
  obtain ⟨hl, hh⟩ := audit_inv_foldl hash d ops [] trivial
    (fun e he => absurd he (List.not_mem_nil e))
  obtain ⟨hl2, hh2⟩ := temp_inv_foldl hash tempRepr d tops [] trivial
    (fun e he => absurd he (List.not_mem_nil e))
  exact ⟨fun h0 => linkedBy_get_zero _ _ _ _ hl h0,
    fun i hi => linkedBy_get_succ _ _ _ _ hl i hi, hh,
    fun h0 => linkedBy_get_zero _ _ _ _ hl2 h0,
    fun i hi => linkedBy_get_succ _ _ _ _ hl2 i hi, hh2⟩

/-- Witness for C3: concrete two-append chains on both tables — the second
record's stored previous-hash equals the first record's stored current-hash,
and the first record's previous-hash is the sentinel. -/
theorem claim_C3_witness :
    ((audit_chain_of idHash "DOC001" [opA, opB]).get ⟨1, by decide⟩).previous_hash =
      ((audit_chain_of idHash "DOC001" [opA, opB]).get ⟨0, by decide⟩).current_hash ∧
    ((audit_chain_of idHash "DOC001" [opA, opB]).get ⟨0, by decide⟩).previous_hash =
      sentinel ∧
    ((temp_chain_of idHash tempReprD "DOC001" [topA, topB]).get
        ⟨1, by decide⟩).prev_hash =
      ((temp_chain_of idHash tempReprD "DOC001" [topA, topB]).get
        ⟨0, by decide⟩).current_hash :=
  ⟨(claim_C3 idHash tempReprD "DOC001" [opA, opB] [topA, topB]).2.1 0 (by decide),
   (claim_C3 idHash tempReprD "DOC001" [opA, opB] [topA, topB]).1 (by decide),
   (claim_C3 idHash tempReprD "DOC001" [opA, opB] [topA, topB]).2.2.2.2.1 0
     (by decide)⟩

end ColdChain
